import Mathlib

/-!
Verification of the register-addressed protocol access layer of
`thermia-genesis-modbus` (src/common_thermia.c, src/common_thermia.h).

The C layer keeps two process-wide globals (`g_ctx : modbus_t*`,
`g_model : model_t`), an immutable register catalog `g_registers[]`, a
first-match lookup `find_register`, and four accessor operations guarded by
the `MODBUS_CHECK` / `REGISTER_CHECK` macros.  We embed this shallowly:

* the globals become an explicit `ModbusState` record threaded through every
  operation (each operation returns the final state, so frame properties are
  provable statements rather than conventions);
* the catalog becomes a `List RegisterDef` parameter;
* the libmodbus transport becomes an oracle `wire : WireOp → Option Nat`
  (`none` models the primitive returning `-1`); every operation also returns
  the list of wire primitives it issued, in order;
* each distinct early-`return false` diagnostic site of the C code becomes a
  distinct constructor of `AccessError` (resp. `OpenError`), matching the
  error taxonomy of the design document;
* the C out-parameters `bool *value` / `int *value` become an explicit
  "previous contents" argument and a "final contents" field of the outcome,
  so that non-writes on failure paths are provable.

Machine integers: the catalog fields and wire words are `Nat`/`Int` with
explicit `% 2 ^ 16` where the C code truncates (`(uint16_t)value`) or
reinterprets (`(int16_t)reg_value`).
-/

/-- Value `REG_COIL_STATUS = 0x01` of the C enum `reg_type_t` (bitmask). -/
def REG_COIL_STATUS : Nat := 0x01
/-- Value `REG_INPUT_STATUS = 0x02` of the C enum `reg_type_t`. -/
def REG_INPUT_STATUS : Nat := 0x02
/-- Value `REG_INPUT = 0x04` of the C enum `reg_type_t`. -/
def REG_INPUT : Nat := 0x04
/-- Value `REG_HOLDING = 0x08` of the C enum `reg_type_t`. -/
def REG_HOLDING : Nat := 0x08

/-- Value `MODEL_MEGA = 0x01` of the C enum `model_t`. -/
def MODEL_MEGA : Nat := 0x01
/-- Value `MODEL_INVERTER = 0x02` of the C enum `model_t`. -/
def MODEL_INVERTER : Nat := 0x02

/-- Structure `register_def_t` from `common_thermia.c`: one catalog entry.  `type` and
`model` are kept as raw bitmask values exactly as the C stores them. -/
structure RegisterDef where
  name : String
  type : Nat
  address : Nat
  defacto : Int
  scale : Int
  model : Nat
  system : String
  subsystem : String
  description : String
deriving Repr, DecidableEq

/-- The two process-wide globals of `common_thermia.c`: `g_ctx` (a transport
handle, `none` for `NULL`) and `g_model`. -/
structure ModbusState where
  g_ctx : Option Nat
  g_model : Nat
deriving Repr, DecidableEq

/-- The six libmodbus primitives the accessors dispatch to, with the
arguments the C code passes them. -/
inductive WireOp where
  | readBits (address : Nat)
  | readInputBits (address : Nat)
  | readInputRegisters (address : Nat)
  | readRegisters (address : Nat)
  | writeBit (address : Nat) (value : Nat)
  | writeRegister (address : Nat) (value : Nat)
deriving Repr, DecidableEq

/-- The distinct failure diagnostics of the accessor operations: one
constructor per early-`return false` site (`MODBUS_CHECK`, the two branches
of `REGISTER_CHECK`, and the wire-I/O failure checks). -/
inductive AccessError where
  | NotInitialised
  | RegisterNotFound
  | UnsupportedForModel
  | ReadFailure
  | WriteFailure
deriving Repr, DecidableEq

/-- The distinct failure diagnostics of `thermia_modbus_open`: initialised
already, `modbus_new_tcp` returning `NULL`, and `modbus_connect` failing. -/
inductive OpenError where
  | AlreadyOpen
  | InitFailed
  | ConnectionFailed
deriving Repr, DecidableEq

/-- Function `find_register(name, type)`: linear scan of the catalog returning the
first entry whose name matches exactly and whose kind intersects the mask
(`strcmp(...) == 0 && g_registers[i].type & type`), `NULL` when none does. -/
def find_register (regs : List RegisterDef) (name : String) (type : Nat) :
    Option RegisterDef :=
  regs.find? fun r => r.name == name && r.type &&& type != 0

/-- Predicate `is_register_supported(reg)`: `reg->model & g_model` (nonzero test). -/
def is_register_supported (g_model : Nat) (reg : RegisterDef) : Bool :=
  reg.model &&& g_model != 0

/-- Cast `(int16_t)reg_value` applied to the raw unsigned 16-bit wire word:
two's-complement reinterpretation. -/
def toInt16 (v : Nat) : Int :=
  let w : Nat := v % 2 ^ 16
  if w < 2 ^ 15 then (w : Int) else (w : Int) - 2 ^ 16

instance {ε α : Type} [DecidableEq ε] [DecidableEq α] :
    DecidableEq (Except ε α) := fun x y =>
  match x, y with
  | .ok a, .ok b =>
    if h : a = b then isTrue (by rw [h]) else isFalse (by simp [h])
  | .error a, .error b =>
    if h : a = b then isTrue (by rw [h]) else isFalse (by simp [h])
  | .ok _, .error _ => isFalse (by simp)
  | .error _, .ok _ => isFalse (by simp)

/-- Cast `(uint16_t)value` applied to a C `int`: truncation to the low 16 bits. -/
def toUInt16 (value : Int) : Nat :=
  (value % 2 ^ 16).toNat

/-- Outcome of a read accessor: the returned result (with the error site on
failure), the final contents of the caller's out-parameter, the wire
primitives issued, and the final global state. -/
structure ReadOutcome (α : Type) where
  result : Except AccessError α
  value : α
  wire : List WireOp
  state : ModbusState
deriving Repr, DecidableEq

/-- Outcome of a write accessor: result, wire primitives issued, final
global state. -/
structure WriteOutcome where
  result : Except AccessError Unit
  wire : List WireOp
  state : ModbusState
deriving Repr, DecidableEq

/-- Function `thermia_modbus_open(address, port, model)`.  `newResult` is what
`modbus_new_tcp` returns (`none` for `NULL`), `connectOk` whether
`modbus_connect` succeeds.  Note the C assigns `g_model = model` after the
already-open check but before attempting the connection. -/
def thermia_modbus_open (st : ModbusState) (model : Nat)
    (newResult : Option Nat) (connectOk : Bool) :
    Except OpenError Unit × ModbusState :=
  if st.g_ctx.isSome then
    (.error .AlreadyOpen, st)
  else
    let st1 : ModbusState := { st with g_model := model }
    match newResult with
    | none => (.error .InitFailed, st1)
    | some ctx =>
      if connectOk then
        (.ok (), { st1 with g_ctx := some ctx })
      else
        (.error .ConnectionFailed, { st1 with g_ctx := none })

/-- Function `thermia_modbus_close()`: releases and nulls `g_ctx` when non-`NULL`,
otherwise does nothing. -/
def thermia_modbus_close (st : ModbusState) : ModbusState :=
  if st.g_ctx.isSome then { st with g_ctx := none } else st

/-- The `rc = ...` dispatch of `thermia_modbus_read_register_bit`:
`modbus_read_bits` when `reg->type == REG_COIL_STATUS`, otherwise
`modbus_read_input_bits`. -/
def read_bit_wire_op (reg : RegisterDef) : WireOp :=
  if reg.type == REG_COIL_STATUS then WireOp.readBits reg.address
  else WireOp.readInputBits reg.address

/-- The `rc = ...` dispatch of `thermia_modbus_read_register_int`:
`modbus_read_input_registers` when `reg->type == REG_INPUT`, otherwise
`modbus_read_registers`. -/
def read_int_wire_op (reg : RegisterDef) : WireOp :=
  if reg.type == REG_INPUT then WireOp.readInputRegisters reg.address
  else WireOp.readRegisters reg.address

/-- The dispatch of `thermia_modbus_write_register_bit`:
`modbus_write_bit(ctx, address, value ? 1 : 0)`. -/
def write_bit_wire_op (reg : RegisterDef) (value : Bool) : WireOp :=
  WireOp.writeBit reg.address (if value then 1 else 0)

/-- The dispatch of `thermia_modbus_write_register_int`:
`modbus_write_register(ctx, address, (uint16_t)value)`. -/
def write_int_wire_op (reg : RegisterDef) (value : Int) : WireOp :=
  WireOp.writeRegister reg.address (toUInt16 value)

/-- Function `thermia_modbus_read_register_bit(name, value)`: `MODBUS_CHECK`, lookup
under mask `REG_COIL_STATUS | REG_INPUT_STATUS`, `REGISTER_CHECK`, then one
`modbus_read_bits` or `modbus_read_input_bits`; on success stores
`reg_value != 0` (the wire word lands in a `uint8_t`, hence `% 2 ^ 8`). -/
def thermia_modbus_read_register_bit (regs : List RegisterDef)
    (st : ModbusState) (name : String) (wire : WireOp → Option Nat)
    (value : Bool) : ReadOutcome Bool :=
  match st.g_ctx with
  | none => ⟨.error .NotInitialised, value, [], st⟩
  | some _ =>
    match find_register regs name (REG_COIL_STATUS ||| REG_INPUT_STATUS) with
    | none => ⟨.error .RegisterNotFound, value, [], st⟩
    | some reg =>
      if is_register_supported st.g_model reg then
        match wire (read_bit_wire_op reg) with
        | none => ⟨.error .ReadFailure, value, [read_bit_wire_op reg], st⟩
        | some raw =>
          ⟨.ok (raw % 2 ^ 8 != 0), raw % 2 ^ 8 != 0,
            [read_bit_wire_op reg], st⟩
      else ⟨.error .UnsupportedForModel, value, [], st⟩

/-- Function `thermia_modbus_read_register_int(name, value)`: `MODBUS_CHECK`, lookup
under mask `REG_INPUT | REG_HOLDING`, `REGISTER_CHECK`, then one
`modbus_read_input_registers` or `modbus_read_registers`; on success stores
`(int16_t)reg_value`. -/
def thermia_modbus_read_register_int (regs : List RegisterDef)
    (st : ModbusState) (name : String) (wire : WireOp → Option Nat)
    (value : Int) : ReadOutcome Int :=
  match st.g_ctx with
  | none => ⟨.error .NotInitialised, value, [], st⟩
  | some _ =>
    match find_register regs name (REG_INPUT ||| REG_HOLDING) with
    | none => ⟨.error .RegisterNotFound, value, [], st⟩
    | some reg =>
      if is_register_supported st.g_model reg then
        match wire (read_int_wire_op reg) with
        | none => ⟨.error .ReadFailure, value, [read_int_wire_op reg], st⟩
        | some raw =>
          ⟨.ok (toInt16 raw), toInt16 raw, [read_int_wire_op reg], st⟩
      else ⟨.error .UnsupportedForModel, value, [], st⟩

/-- Function `thermia_modbus_write_register_bit(name, value)`: `MODBUS_CHECK`, lookup
under mask `REG_COIL_STATUS` only, `REGISTER_CHECK`, then one
`modbus_write_bit(ctx, address, value ? 1 : 0)`. -/
def thermia_modbus_write_register_bit (regs : List RegisterDef)
    (st : ModbusState) (name : String) (wire : WireOp → Option Nat)
    (value : Bool) : WriteOutcome :=
  match st.g_ctx with
  | none => ⟨.error .NotInitialised, [], st⟩
  | some _ =>
    match find_register regs name REG_COIL_STATUS with
    | none => ⟨.error .RegisterNotFound, [], st⟩
    | some reg =>
      if is_register_supported st.g_model reg then
        match wire (write_bit_wire_op reg value) with
        | none => ⟨.error .WriteFailure, [write_bit_wire_op reg value], st⟩
        | some _ => ⟨.ok (), [write_bit_wire_op reg value], st⟩
      else ⟨.error .UnsupportedForModel, [], st⟩

/-- Function `thermia_modbus_write_register_int(name, value)`: `MODBUS_CHECK`, lookup
under mask `REG_HOLDING` only, `REGISTER_CHECK`, then one
`modbus_write_register(ctx, address, (uint16_t)value)`. -/
def thermia_modbus_write_register_int (regs : List RegisterDef)
    (st : ModbusState) (name : String) (wire : WireOp → Option Nat)
    (value : Int) : WriteOutcome :=
  match st.g_ctx with
  | none => ⟨.error .NotInitialised, [], st⟩
  | some _ =>
    match find_register regs name REG_HOLDING with
    | none => ⟨.error .RegisterNotFound, [], st⟩
    | some reg =>
      if is_register_supported st.g_model reg then
        match wire (write_int_wire_op reg value) with
        | none => ⟨.error .WriteFailure, [write_int_wire_op reg value], st⟩
        | some _ => ⟨.ok (), [write_int_wire_op reg value], st⟩
      else ⟨.error .UnsupportedForModel, [], st⟩

/-- The scaled presentation of a raw value, as printed by the CLI harness:
`reg->scale > 1 ? (double)value / reg->scale : value` (modelled over `ℚ`). -/
def toDisplay (raw : Int) (scale : Int) : ℚ :=
  if scale > 1 then (raw : ℚ) / (scale : ℚ) else (raw : ℚ)

/-- Modelled from the spec: the `toRaw` half of the ValueScaling helper is
not present in `src/` (the CLI write path takes pre-scaled integers), so it
is taken verbatim from the design document:
`toRaw(display, scale) = round(display * scale)`. -/
def toRaw (display : ℚ) (scale : Int) : Int :=
  round (display * (scale : ℚ))

-- Sample catalog entries and states used by the witness theorems (field
-- values follow the end-to-end scenarios of the design document).

/-- A holding register applicable to both models (design-document scenario). -/
def sampleHolding : RegisterDef :=
  { name := "valueHeatpumpBrineInTemperature", type := REG_HOLDING,
    address := 100, defacto := 0, scale := 10,
    model := MODEL_MEGA ||| MODEL_INVERTER,
    system := "heatpump", subsystem := "brine", description := "" }

/-- A coil applicable to the Mega model only (design-document scenario). -/
def sampleCoilMega : RegisterDef :=
  { name := "enableHeatpumpResetAllAlarms", type := REG_COIL_STATUS,
    address := 50, defacto := 0, scale := 1, model := MODEL_MEGA,
    system := "heatpump", subsystem := "alarms", description := "" }

/-- A discrete input applicable to the Mega model only. -/
def sampleInputStatus : RegisterDef :=
  { name := "alarmHeatpumpBrineInSensor", type := REG_INPUT_STATUS,
    address := 20, defacto := 0, scale := 1, model := MODEL_MEGA,
    system := "heatpump", subsystem := "alarms", description := "" }

/-- An input register applicable to the Mega model only. -/
def sampleInput : RegisterDef :=
  { name := "valueHeatpumpOutdoorTemperature", type := REG_INPUT,
    address := 30, defacto := 0, scale := 10, model := MODEL_MEGA,
    system := "heatpump", subsystem := "sensors", description := "" }

/-- A holding register applicable to the Mega model only. -/
def sampleHoldingMega : RegisterDef :=
  { name := "setpointHeatpumpRoomTemperature", type := REG_HOLDING,
    address := 40, defacto := 200, scale := 10, model := MODEL_MEGA,
    system := "heatpump", subsystem := "setpoints", description := "" }

/-- The sample catalog. -/
def sampleRegs : List RegisterDef :=
  [sampleHolding, sampleCoilMega, sampleInputStatus, sampleInput,
    sampleHoldingMega]

/-- An open session configured for the Mega model. -/
def stMega : ModbusState := { g_ctx := some 7, g_model := MODEL_MEGA }

/-- An open session configured for the Inverter model. -/
def stInverter : ModbusState := { g_ctx := some 7, g_model := MODEL_INVERTER }

/-- A closed session. -/
def stClosed : ModbusState := { g_ctx := none, g_model := MODEL_MEGA }

/-- A transport whose every primitive fails. -/
def wireFail : WireOp → Option Nat := fun _ => none

/-- A transport whose every primitive succeeds returning `n`. -/
def wireConst (n : Nat) : WireOp → Option Nat := fun _ => some n

/-- First-match characterisation of `List.find?`: a successful scan returns
an element satisfying the predicate such that every element before it in the
list fails the predicate. -/
theorem find?_first_match {α : Type} (p : α → Bool) (l : List α) (r : α)
    (h : l.find? p = some r) :
    p r = true ∧ ∃ pre post, l = pre ++ r :: post ∧ ∀ x ∈ pre, p x = false := by
  induction l with
  | nil => simp [List.find?] at h
  | cons a t ih =>
    by_cases ha : p a = true
    · rw [List.find?_cons_of_pos _ ha] at h
      cases h
      exact ⟨ha, [], t, rfl, by simp⟩
    · rw [List.find?_cons_of_neg _ ha] at h
      obtain ⟨hp, pre, post, heq, hpre⟩ := ih h
      refine ⟨hp, a :: pre, post, by rw [heq]; rfl, ?_⟩
      intro x hx
      rcases List.mem_cons.mp hx with hx | hx
      · subst hx
        simpa using ha
      · exact hpre x hx

/-- C5: `find_register(name, kindMask)` matches on exact name equality
combined with a nonzero intersection of the entry's kind with the mask,
returns the first entry of the table (in table order) satisfying both
conditions, returns `NULL` exactly when no entry satisfies them, and is
deterministic (a pure function of the catalog, name and mask). -/
theorem find_register_first_match (regs : List RegisterDef) (name : String)
    (mask : Nat) :
    (∀ r, find_register regs name mask = some r →
      r ∈ regs ∧ r.name = name ∧ r.type &&& mask ≠ 0 ∧
      ∃ pre post, regs = pre ++ r :: post ∧
        ∀ x ∈ pre, ¬(x.name = name ∧ x.type &&& mask ≠ 0)) ∧
    (find_register regs name mask = none ↔
      ∀ r ∈ regs, ¬(r.name = name ∧ r.type &&& mask ≠ 0)) ∧
    find_register regs name mask = find_register regs name mask := by
  refine ⟨?_, ?_, rfl⟩
  · intro r h
    obtain ⟨hp, pre, post, heq, hpre⟩ := find?_first_match _ regs r h
    simp only [Bool.and_eq_true, beq_iff_eq, bne_iff_ne, ne_eq] at hp
    refine ⟨?_, hp.1, hp.2, pre, post, heq, ?_⟩
    · rw [heq]; exact List.mem_append_right pre (List.mem_cons_self r post)
    · intro x hx
      have := hpre x hx
      simp only [Bool.and_eq_false_iff, beq_eq_false_iff_ne, ne_eq,
        bne_eq_false_iff_eq] at this
      rintro ⟨hn, ht⟩
      rcases this with h1 | h1
      · exact h1 hn
      · exact ht h1
  · rw [find_register, List.find?_eq_none]
    constructor
    · intro hall r hr
      have := hall r hr
      simp only [Bool.and_eq_true, beq_iff_eq, bne_iff_ne, ne_eq, not_and] at this ⊢
      exact this
    · intro hall r hr
      have := hall r hr
      simp only [Bool.and_eq_true, beq_iff_eq, bne_iff_ne, ne_eq, not_and] at this ⊢
      exact this

/-- Witness for C5: on the sample catalog, the lookup of the brine-inlet
holding register returns its entry, first in table order. -/
theorem find_register_first_match_witness :
    sampleHolding ∈ sampleRegs ∧
    sampleHolding.name = "valueHeatpumpBrineInTemperature" ∧
    sampleHolding.type &&& REG_HOLDING ≠ 0 ∧
    ∃ pre post, sampleRegs = pre ++ sampleHolding :: post ∧
      ∀ x ∈ pre,
        ¬(x.name = "valueHeatpumpBrineInTemperature" ∧
          x.type &&& REG_HOLDING ≠ 0) :=
  (find_register_first_match sampleRegs "valueHeatpumpBrineInTemperature"
    REG_HOLDING).1 sampleHolding (by decide)

/-- C9: with no open session, every accessor operation fails with the
`MODBUS_CHECK` diagnostic (`NotInitialised`) and issues no wire I/O: the
session check precedes name resolution, so `RegisterNotFound` or
`UnsupportedForModel` is never the reported error while closed. -/
theorem closed_session_reports_not_initialised
    (regs : List RegisterDef) (st : ModbusState) (name : String)
    (wire : WireOp → Option Nat) (prevB : Bool) (prevI : Int)
    (bv : Bool) (iv : Int) (hclosed : st.g_ctx = none) :
    ((thermia_modbus_read_register_bit regs st name wire prevB).result =
        .error .NotInitialised ∧
      (thermia_modbus_read_register_bit regs st name wire prevB).wire = []) ∧
    ((thermia_modbus_read_register_int regs st name wire prevI).result =
        .error .NotInitialised ∧
      (thermia_modbus_read_register_int regs st name wire prevI).wire = []) ∧
    ((thermia_modbus_write_register_bit regs st name wire bv).result =
        .error .NotInitialised ∧
      (thermia_modbus_write_register_bit regs st name wire bv).wire = []) ∧
    ((thermia_modbus_write_register_int regs st name wire iv).result =
        .error .NotInitialised ∧
      (thermia_modbus_write_register_int regs st name wire iv).wire = []) := by
  simp [thermia_modbus_read_register_bit, thermia_modbus_read_register_int,
    thermia_modbus_write_register_bit, thermia_modbus_write_register_int,
    hclosed]

/-- Witness for C9: on the closed session, reading a resolvable name still
reports `NotInitialised`, not `RegisterNotFound` or `UnsupportedForModel`. -/
theorem closed_session_reports_not_initialised_witness :
    ((thermia_modbus_read_register_bit sampleRegs stClosed
        "enableHeatpumpResetAllAlarms" (wireConst 1) false).result =
        .error .NotInitialised ∧
      (thermia_modbus_read_register_bit sampleRegs stClosed
        "enableHeatpumpResetAllAlarms" (wireConst 1) false).wire = []) ∧
    ((thermia_modbus_read_register_int sampleRegs stClosed
        "enableHeatpumpResetAllAlarms" (wireConst 1) 0).result =
        .error .NotInitialised ∧
      (thermia_modbus_read_register_int sampleRegs stClosed
        "enableHeatpumpResetAllAlarms" (wireConst 1) 0).wire = []) ∧
    ((thermia_modbus_write_register_bit sampleRegs stClosed
        "enableHeatpumpResetAllAlarms" (wireConst 1) true).result =
        .error .NotInitialised ∧
      (thermia_modbus_write_register_bit sampleRegs stClosed
        "enableHeatpumpResetAllAlarms" (wireConst 1) true).wire = []) ∧
    ((thermia_modbus_write_register_int sampleRegs stClosed
        "enableHeatpumpResetAllAlarms" (wireConst 1) 3).result =
        .error .NotInitialised ∧
      (thermia_modbus_write_register_int sampleRegs stClosed
        "enableHeatpumpResetAllAlarms" (wireConst 1) 3).wire = []) :=
  closed_session_reports_not_initialised sampleRegs stClosed
    "enableHeatpumpResetAllAlarms" (wireConst 1) false 0 true 3 rfl

/-- C1: for each of the four accessor operations, when the name resolves
under the operation's kind mask but the resolved register's model bitset
does not intersect the session's configured model, the operation fails with
`UnsupportedForModel` and issues no wire primitive. -/
theorem unsupported_model_rejected_before_wire_io
    (regs : List RegisterDef) (st : ModbusState) (h : Nat)
    (wire : WireOp → Option Nat) (prevB : Bool) (prevI : Int)
    (bv : Bool) (iv : Int)
    (n1 n2 n3 n4 : String) (r1 r2 r3 r4 : RegisterDef)
    (hopen : st.g_ctx = some h)
    (hf1 : find_register regs n1 (REG_COIL_STATUS ||| REG_INPUT_STATUS) = some r1)
    (hs1 : r1.model &&& st.g_model = 0)
    (hf2 : find_register regs n2 (REG_INPUT ||| REG_HOLDING) = some r2)
    (hs2 : r2.model &&& st.g_model = 0)
    (hf3 : find_register regs n3 REG_COIL_STATUS = some r3)
    (hs3 : r3.model &&& st.g_model = 0)
    (hf4 : find_register regs n4 REG_HOLDING = some r4)
    (hs4 : r4.model &&& st.g_model = 0) :
    ((thermia_modbus_read_register_bit regs st n1 wire prevB).result =
        .error .UnsupportedForModel ∧
      (thermia_modbus_read_register_bit regs st n1 wire prevB).wire = []) ∧
    ((thermia_modbus_read_register_int regs st n2 wire prevI).result =
        .error .UnsupportedForModel ∧
      (thermia_modbus_read_register_int regs st n2 wire prevI).wire = []) ∧
    ((thermia_modbus_write_register_bit regs st n3 wire bv).result =
        .error .UnsupportedForModel ∧
      (thermia_modbus_write_register_bit regs st n3 wire bv).wire = []) ∧
    ((thermia_modbus_write_register_int regs st n4 wire iv).result =
        .error .UnsupportedForModel ∧
      (thermia_modbus_write_register_int regs st n4 wire iv).wire = []) := by
  simp [thermia_modbus_read_register_bit, thermia_modbus_read_register_int,
    thermia_modbus_write_register_bit, thermia_modbus_write_register_int,
    is_register_supported, hopen, hf1, hs1, hf2, hs2, hf3, hs3, hf4, hs4]

/-- Witness for C1: on a session configured for the Inverter model, the four
accessors reject the Mega-only sample registers (which all resolve) with
`UnsupportedForModel` and no wire traffic. -/
theorem unsupported_model_rejected_before_wire_io_witness :
    ((thermia_modbus_read_register_bit sampleRegs stInverter
        "enableHeatpumpResetAllAlarms" (wireConst 1) false).result =
        .error .UnsupportedForModel ∧
      (thermia_modbus_read_register_bit sampleRegs stInverter
        "enableHeatpumpResetAllAlarms" (wireConst 1) false).wire = []) ∧
    ((thermia_modbus_read_register_int sampleRegs stInverter
        "valueHeatpumpOutdoorTemperature" (wireConst 1) 0).result =
        .error .UnsupportedForModel ∧
      (thermia_modbus_read_register_int sampleRegs stInverter
        "valueHeatpumpOutdoorTemperature" (wireConst 1) 0).wire = []) ∧
    ((thermia_modbus_write_register_bit sampleRegs stInverter
        "enableHeatpumpResetAllAlarms" (wireConst 1) true).result =
        .error .UnsupportedForModel ∧
      (thermia_modbus_write_register_bit sampleRegs stInverter
        "enableHeatpumpResetAllAlarms" (wireConst 1) true).wire = []) ∧
    ((thermia_modbus_write_register_int sampleRegs stInverter
        "setpointHeatpumpRoomTemperature" (wireConst 1) 210).result =
        .error .UnsupportedForModel ∧
      (thermia_modbus_write_register_int sampleRegs stInverter
        "setpointHeatpumpRoomTemperature" (wireConst 1) 210).wire = []) :=
  unsupported_model_rejected_before_wire_io sampleRegs stInverter 7
    (wireConst 1) false 0 true 210
    "enableHeatpumpResetAllAlarms" "valueHeatpumpOutdoorTemperature"
    "enableHeatpumpResetAllAlarms" "setpointHeatpumpRoomTemperature"
    sampleCoilMega sampleInput sampleCoilMega sampleHoldingMega
    rfl (by decide) (by decide) (by decide) (by decide) (by decide)
    (by decide) (by decide) (by decide)

/-- C2: a successful `readInt` returns `(int16_t)reg_value`, the
two's-complement reinterpretation of the raw unsigned 16-bit wire word; in
particular wire value `0xFFF6` (65526) comes back as `-10` and `0x0005`
as `5`. -/
theorem read_int_sign_extends
    (regs : List RegisterDef) (st : ModbusState) (h : Nat) (name : String)
    (wire : WireOp → Option Nat) (prev : Int) (reg : RegisterDef) (raw : Nat)
    (hopen : st.g_ctx = some h)
    (hfind : find_register regs name (REG_INPUT ||| REG_HOLDING) = some reg)
    (hsup : is_register_supported st.g_model reg = true)
    (hw : ∀ o, wire o = some raw) :
    (thermia_modbus_read_register_int regs st name wire prev).result =
      .ok (toInt16 raw) ∧
    (thermia_modbus_read_register_int regs st name wire prev).value =
      toInt16 raw ∧
    toInt16 65526 = -10 ∧ toInt16 5 = 5 := by
  refine ⟨?_, ?_, by decide, by decide⟩ <;>
    simp [thermia_modbus_read_register_int, hopen, hfind, hsup, hw]

/-- Witness for C2: reading the brine-inlet holding register over a
transport that answers `0xFFF6` yields `-10`. -/
theorem read_int_sign_extends_witness :
    (thermia_modbus_read_register_int sampleRegs stMega
      "valueHeatpumpBrineInTemperature" (wireConst 65526) 0).result =
      .ok (toInt16 65526) ∧
    (thermia_modbus_read_register_int sampleRegs stMega
      "valueHeatpumpBrineInTemperature" (wireConst 65526) 0).value =
      toInt16 65526 ∧
    toInt16 65526 = -10 ∧ toInt16 5 = 5 :=
  read_int_sign_extends sampleRegs stMega 7
    "valueHeatpumpBrineInTemperature" (wireConst 65526) 0 sampleHolding 65526
    rfl (by decide) (by decide) (fun _ => rfl)

/-- C3: the write kind masks exclude the read-only kinds: an entry of kind
`REG_INPUT` is invisible to `writeInt` (mask `REG_HOLDING`) and an entry of
kind `REG_INPUT_STATUS` is invisible to `writeBit` (mask `REG_COIL_STATUS`),
so, provided no other catalog entry shares the name, the writes fail with
`RegisterNotFound` exactly as for an absent name. -/
theorem write_kind_masks_exclude_read_only
    (regs : List RegisterDef) (st : ModbusState) (h : Nat)
    (wire : WireOp → Option Nat) (iv : Int) (bv : Bool)
    (e1 e2 : RegisterDef)
    (hopen : st.g_ctx = some h)
    (hm1 : e1 ∈ regs) (ht1 : e1.type = REG_INPUT)
    (hu1 : ∀ r ∈ regs, r.name = e1.name → r = e1)
    (hm2 : e2 ∈ regs) (ht2 : e2.type = REG_INPUT_STATUS)
    (hu2 : ∀ r ∈ regs, r.name = e2.name → r = e2) :
    find_register regs e1.name REG_HOLDING = none ∧
    (thermia_modbus_write_register_int regs st e1.name wire iv).result =
      .error .RegisterNotFound ∧
    find_register regs e2.name REG_COIL_STATUS = none ∧
    (thermia_modbus_write_register_bit regs st e2.name wire bv).result =
      .error .RegisterNotFound := by
  have hn1 : find_register regs e1.name REG_HOLDING = none := by
    rw [find_register, List.find?_eq_none]
    intro r hr
    simp only [Bool.and_eq_true, beq_iff_eq, bne_iff_ne, ne_eq, not_and]
    intro hname
    rw [hu1 r hr hname, ht1]
    decide
  have hn2 : find_register regs e2.name REG_COIL_STATUS = none := by
    rw [find_register, List.find?_eq_none]
    intro r hr
    simp only [Bool.and_eq_true, beq_iff_eq, bne_iff_ne, ne_eq, not_and]
    intro hname
    rw [hu2 r hr hname, ht2]
    decide
  refine ⟨hn1, ?_, hn2, ?_⟩ <;>
    simp [thermia_modbus_write_register_int,
      thermia_modbus_write_register_bit, hopen, hn1, hn2]

/-- Witness for C3: on the sample catalog, `writeInt` against the input
register and `writeBit` against the discrete input fail with
`RegisterNotFound`. -/
theorem write_kind_masks_exclude_read_only_witness :
    find_register sampleRegs sampleInput.name REG_HOLDING = none ∧
    (thermia_modbus_write_register_int sampleRegs stMega sampleInput.name
      (wireConst 1) 5).result = .error .RegisterNotFound ∧
    find_register sampleRegs sampleInputStatus.name REG_COIL_STATUS = none ∧
    (thermia_modbus_write_register_bit sampleRegs stMega
      sampleInputStatus.name (wireConst 1) true).result =
      .error .RegisterNotFound :=
  write_kind_masks_exclude_read_only sampleRegs stMega 7 (wireConst 1) 5 true
    sampleInput sampleInputStatus rfl (by decide) (by decide)
    (by decide) (by decide) (by decide) (by decide)

/-- Closing twice is the same as closing once. -/
theorem thermia_modbus_close_idem (st : ModbusState) :
    thermia_modbus_close (thermia_modbus_close st) = thermia_modbus_close st := by
  cases hst : st.g_ctx <;> simp [thermia_modbus_close, hst]

/-- C4: the session obeys
`Closed --open(success)--> Open --close--> Closed` with
`Closed --open(failure)--> Closed`: opening while open fails with
`AlreadyOpen` leaving the session untouched; a failed open (either
transport-allocation or connect failure) ends Closed; close from Open
releases the transport; close when already closed is a no-op, so any number
of closes succeeds. -/
theorem session_state_machine
    (st : ModbusState) (model h ctx : Nat) (newR : Option Nat)
    (connectOk : Bool) :
    (st.g_ctx = some h →
      thermia_modbus_open st model newR connectOk =
        (.error .AlreadyOpen, st)) ∧
    (st.g_ctx = none →
      thermia_modbus_open st model none connectOk =
        (.error .InitFailed, { st with g_model := model })) ∧
    (st.g_ctx = none →
      thermia_modbus_open st model (some ctx) false =
        (.error .ConnectionFailed,
          { st with g_model := model, g_ctx := none })) ∧
    (st.g_ctx = none →
      thermia_modbus_open st model (some ctx) true =
        (.ok (), { g_ctx := some ctx, g_model := model })) ∧
    (thermia_modbus_close st).g_ctx = none ∧
    (st.g_ctx = some h →
      thermia_modbus_close st = { st with g_ctx := none }) ∧
    (st.g_ctx = none → thermia_modbus_close st = st) ∧
    (∀ n, thermia_modbus_close^[n + 1] st = thermia_modbus_close st) := by
  refine ⟨?_, ?_, ?_, ?_, ?_, ?_, ?_, ?_⟩
  · intro hopen; simp [thermia_modbus_open, hopen]
  · intro hc; simp [thermia_modbus_open, hc]
  · intro hc; simp [thermia_modbus_open, hc]
  · intro hc; simp [thermia_modbus_open, hc]
  · cases hst : st.g_ctx <;> simp [thermia_modbus_close, hst]
  · intro hopen; simp [thermia_modbus_close, hopen]
  · intro hc; simp [thermia_modbus_close, hc]
  · intro n
    induction n with
    | zero => simp [thermia_modbus_close_idem]
    | succ m ih =>
      rw [Function.iterate_succ_apply', ih, thermia_modbus_close_idem]

/-- Witness for C4: concrete transitions on the sample states — a second
open on the open Mega session fails `AlreadyOpen` and changes nothing, a
connect failure from Closed ends Closed, a successful open records the
transport and model, and three closes in a row equal one. -/
theorem session_state_machine_witness :
    thermia_modbus_open stMega MODEL_INVERTER (some 9) true =
      (.error .AlreadyOpen, stMega) ∧
    thermia_modbus_open stClosed MODEL_INVERTER (some 9) false =
      (.error .ConnectionFailed,
        { stClosed with g_model := MODEL_INVERTER, g_ctx := none }) ∧
    thermia_modbus_open stClosed MODEL_INVERTER (some 9) true =
      (.ok (), { g_ctx := some 9, g_model := MODEL_INVERTER }) ∧
    (thermia_modbus_close stMega).g_ctx = none ∧
    thermia_modbus_close^[3] stMega = thermia_modbus_close stMega := by
  have w1 := session_state_machine stMega MODEL_INVERTER 7 9 (some 9) true
  have w2 := session_state_machine stClosed MODEL_INVERTER 7 9 (some 9) true
  exact ⟨w1.1 rfl, w2.2.2.1 rfl, w2.2.2.2.1 rfl, w1.2.2.2.2.1,
    w1.2.2.2.2.2.2.2 2⟩

/-- C6: a wire I/O failure after successful lookup and authorization is
reported as `ReadFailure`/`WriteFailure` and leaves the session state
exactly as before the call — still open with the same transport handle and
model — for each of the four accessor operations. -/
theorem wire_failure_preserves_session
    (regs : List RegisterDef) (st : ModbusState) (h : Nat)
    (wire : WireOp → Option Nat) (prevB : Bool) (prevI : Int)
    (bv : Bool) (iv : Int)
    (n1 n2 n3 n4 : String) (r1 r2 r3 r4 : RegisterDef)
    (hopen : st.g_ctx = some h)
    (hw : ∀ o, wire o = none)
    (hf1 : find_register regs n1 (REG_COIL_STATUS ||| REG_INPUT_STATUS) =
      some r1)
    (hs1 : is_register_supported st.g_model r1 = true)
    (hf2 : find_register regs n2 (REG_INPUT ||| REG_HOLDING) = some r2)
    (hs2 : is_register_supported st.g_model r2 = true)
    (hf3 : find_register regs n3 REG_COIL_STATUS = some r3)
    (hs3 : is_register_supported st.g_model r3 = true)
    (hf4 : find_register regs n4 REG_HOLDING = some r4)
    (hs4 : is_register_supported st.g_model r4 = true) :
    ((thermia_modbus_read_register_bit regs st n1 wire prevB).result =
        .error .ReadFailure ∧
      (thermia_modbus_read_register_bit regs st n1 wire prevB).state = st ∧
      (thermia_modbus_read_register_bit regs st n1 wire prevB).state.g_ctx =
        some h) ∧
    ((thermia_modbus_read_register_int regs st n2 wire prevI).result =
        .error .ReadFailure ∧
      (thermia_modbus_read_register_int regs st n2 wire prevI).state = st ∧
      (thermia_modbus_read_register_int regs st n2 wire prevI).state.g_ctx =
        some h) ∧
    ((thermia_modbus_write_register_bit regs st n3 wire bv).result =
        .error .WriteFailure ∧
      (thermia_modbus_write_register_bit regs st n3 wire bv).state = st ∧
      (thermia_modbus_write_register_bit regs st n3 wire bv).state.g_ctx =
        some h) ∧
    ((thermia_modbus_write_register_int regs st n4 wire iv).result =
        .error .WriteFailure ∧
      (thermia_modbus_write_register_int regs st n4 wire iv).state = st ∧
      (thermia_modbus_write_register_int regs st n4 wire iv).state.g_ctx =
        some h) := by
  simp [thermia_modbus_read_register_bit, thermia_modbus_read_register_int,
    thermia_modbus_write_register_bit, thermia_modbus_write_register_int,
    hopen, hw, hf1, hs1, hf2, hs2, hf3, hs3, hf4, hs4]

/-- Witness for C6: against a transport whose every primitive fails, the
four accessors on supported sample registers report wire failures and the
Mega session state is unchanged and still open. -/
theorem wire_failure_preserves_session_witness :
    ((thermia_modbus_read_register_bit sampleRegs stMega
        "enableHeatpumpResetAllAlarms" wireFail false).result =
        .error .ReadFailure ∧
      (thermia_modbus_read_register_bit sampleRegs stMega
        "enableHeatpumpResetAllAlarms" wireFail false).state = stMega ∧
      (thermia_modbus_read_register_bit sampleRegs stMega
        "enableHeatpumpResetAllAlarms" wireFail false).state.g_ctx =
        some 7) ∧
    ((thermia_modbus_read_register_int sampleRegs stMega
        "valueHeatpumpBrineInTemperature" wireFail 0).result =
        .error .ReadFailure ∧
      (thermia_modbus_read_register_int sampleRegs stMega
        "valueHeatpumpBrineInTemperature" wireFail 0).state = stMega ∧
      (thermia_modbus_read_register_int sampleRegs stMega
        "valueHeatpumpBrineInTemperature" wireFail 0).state.g_ctx =
        some 7) ∧
    ((thermia_modbus_write_register_bit sampleRegs stMega
        "enableHeatpumpResetAllAlarms" wireFail true).result =
        .error .WriteFailure ∧
      (thermia_modbus_write_register_bit sampleRegs stMega
        "enableHeatpumpResetAllAlarms" wireFail true).state = stMega ∧
      (thermia_modbus_write_register_bit sampleRegs stMega
        "enableHeatpumpResetAllAlarms" wireFail true).state.g_ctx =
        some 7) ∧
    ((thermia_modbus_write_register_int sampleRegs stMega
        "valueHeatpumpBrineInTemperature" wireFail 210).result =
        .error .WriteFailure ∧
      (thermia_modbus_write_register_int sampleRegs stMega
        "valueHeatpumpBrineInTemperature" wireFail 210).state = stMega ∧
      (thermia_modbus_write_register_int sampleRegs stMega
        "valueHeatpumpBrineInTemperature" wireFail 210).state.g_ctx =
        some 7) :=
  wire_failure_preserves_session sampleRegs stMega 7 wireFail false 0 true 210
    "enableHeatpumpResetAllAlarms" "valueHeatpumpBrineInTemperature"
    "enableHeatpumpResetAllAlarms" "valueHeatpumpBrineInTemperature"
    sampleCoilMega sampleHolding sampleCoilMega sampleHolding
    rfl (fun _ => rfl) (by decide) (by decide) (by decide) (by decide)
    (by decide) (by decide) (by decide) (by decide)

/-- C7: `writeInt` puts on the wire exactly `(uint16_t)value`, the
caller-supplied integer wrapped to its low 16 bits (`value mod 2 ^ 16`),
whatever the sign or magnitude of the input. -/
theorem write_int_truncates_to_16_bits
    (regs : List RegisterDef) (st : ModbusState) (h : Nat) (name : String)
    (wire : WireOp → Option Nat) (value : Int) (reg : RegisterDef)
    (hopen : st.g_ctx = some h)
    (hfind : find_register regs name REG_HOLDING = some reg)
    (hsup : is_register_supported st.g_model reg = true) :
    (thermia_modbus_write_register_int regs st name wire value).wire =
      [WireOp.writeRegister reg.address (toUInt16 value)] ∧
    (toUInt16 value : Int) = value % 2 ^ 16 ∧
    toUInt16 value < 2 ^ 16 := by
  refine ⟨?_, ?_, ?_⟩
  · have hwop : write_int_wire_op reg value =
        WireOp.writeRegister reg.address (toUInt16 value) := rfl
    rw [← hwop]
    cases hw : wire (write_int_wire_op reg value) <;>
      simp [thermia_modbus_write_register_int, hopen, hfind, hsup, hw]
  · exact Int.toNat_of_nonneg (Int.emod_nonneg value (by norm_num))
  · have h1 : 0 ≤ value % 2 ^ 16 := Int.emod_nonneg value (by norm_num)
    have h2 : value % 2 ^ 16 < 2 ^ 16 := Int.emod_lt_of_pos value (by norm_num)
    simp only [toUInt16] at *
    omega

/-- Witness for C7: writing `-10` to the brine-inlet holding register puts
the wrapped word `0xFFF6` (65526) on the wire. -/
theorem write_int_truncates_to_16_bits_witness :
    (thermia_modbus_write_register_int sampleRegs stMega
      "valueHeatpumpBrineInTemperature" (wireConst 1) (-10)).wire =
      [WireOp.writeRegister sampleHolding.address (toUInt16 (-10))] ∧
    (toUInt16 (-10) : Int) = (-10) % 2 ^ 16 ∧
    toUInt16 (-10) < 2 ^ 16 :=
  write_int_truncates_to_16_bits sampleRegs stMega 7
    "valueHeatpumpBrineInTemperature" (wireConst 1) (-10) sampleHolding
    rfl (by decide) (by decide)

/-- C8: the scaling helpers divide by the scale (over `ℚ`) exactly when
`scale > 1` and are the identity otherwise, `toRaw` rounds the product, the
given vectors hold (`toDisplay(225, 10) = 22.5`, `toRaw(22.5, 10) = 225`),
and scaling never enters the wire path: changing a register's `scale` field
changes nothing about what `readInt` or `writeInt` compute or transmit. -/
theorem value_scaling_presentation_only
    (raw s : Int) (d : ℚ) (reg : RegisterDef) (st : ModbusState)
    (name : String) (wire : WireOp → Option Nat) (prevI iv : Int) :
    (s > 1 → toDisplay raw s = (raw : ℚ) / (s : ℚ)) ∧
    (s ≤ 1 → toDisplay raw s = (raw : ℚ)) ∧
    toRaw d s = round (d * (s : ℚ)) ∧
    toDisplay 225 10 = 22.5 ∧
    toRaw 22.5 10 = 225 ∧
    (∀ sc : Int,
      thermia_modbus_read_register_int [{ reg with scale := sc }] st name
          wire prevI =
        thermia_modbus_read_register_int [reg] st name wire prevI) ∧
    (∀ sc : Int,
      thermia_modbus_write_register_int [{ reg with scale := sc }] st name
          wire iv =
        thermia_modbus_write_register_int [reg] st name wire iv) := by
  refine ⟨?_, ?_, rfl, ?_, ?_, ?_, ?_⟩
  · intro hs; rw [toDisplay, if_pos hs]
  · intro hs; rw [toDisplay, if_neg (by omega)]
  · rw [toDisplay, if_pos (by norm_num)]; norm_num
  · rw [toRaw]; norm_num
  · intro sc
    unfold thermia_modbus_read_register_int
    cases hctx : st.g_ctx with
    | none => rfl
    | some hh =>
      cases hb :
          (reg.name == name &&
            reg.type &&& (REG_INPUT ||| REG_HOLDING) != 0) with
      | true =>
        have e1 : find_register [{ reg with scale := sc }] name
            (REG_INPUT ||| REG_HOLDING) = some { reg with scale := sc } := by
          simp [find_register, List.find?, hb]
        have e2 : find_register [reg] name (REG_INPUT ||| REG_HOLDING) =
            some reg := by
          simp [find_register, List.find?, hb]
        rw [e1, e2]
        simp [is_register_supported, read_int_wire_op]
      | false =>
        have e1 : find_register [{ reg with scale := sc }] name
            (REG_INPUT ||| REG_HOLDING) = none := by
          simp [find_register, List.find?, hb]
        have e2 : find_register [reg] name (REG_INPUT ||| REG_HOLDING) =
            none := by
          simp [find_register, List.find?, hb]
        rw [e1, e2]
  · intro sc
    unfold thermia_modbus_write_register_int
    cases hctx : st.g_ctx with
    | none => rfl
    | some hh =>
      cases hb : (reg.name == name && reg.type &&& REG_HOLDING != 0) with
      | true =>
        have e1 : find_register [{ reg with scale := sc }] name REG_HOLDING =
            some { reg with scale := sc } := by
          simp [find_register, List.find?, hb]
        have e2 : find_register [reg] name REG_HOLDING = some reg := by
          simp [find_register, List.find?, hb]
        rw [e1, e2]
        simp [is_register_supported, write_int_wire_op]
      | false =>
        have e1 : find_register [{ reg with scale := sc }] name REG_HOLDING =
            none := by
          simp [find_register, List.find?, hb]
        have e2 : find_register [reg] name REG_HOLDING = none := by
          simp [find_register, List.find?, hb]
        rw [e1, e2]

/-- Witness for C8: the round-trip vectors on scale 10, the identity at
scale 1, and scale-independence of `readInt` on the sample holding
register. -/
theorem value_scaling_presentation_only_witness :
    toDisplay 225 10 = (225 : ℚ) / (10 : ℚ) ∧
    toDisplay 225 1 = (225 : ℚ) ∧
    toDisplay 225 10 = 22.5 ∧
    toRaw 22.5 10 = 225 ∧
    thermia_modbus_read_register_int [{ sampleHolding with scale := 1000 }]
        stMega "valueHeatpumpBrineInTemperature" (wireConst 225) 0 =
      thermia_modbus_read_register_int [sampleHolding] stMega
        "valueHeatpumpBrineInTemperature" (wireConst 225) 0 :=
  have w1 := value_scaling_presentation_only 225 10 22.5 sampleHolding stMega
    "valueHeatpumpBrineInTemperature" (wireConst 225) 0 0
  have w2 := value_scaling_presentation_only 225 1 22.5 sampleHolding stMega
    "valueHeatpumpBrineInTemperature" (wireConst 225) 0 0
  ⟨w1.1 (by norm_num), w2.2.1 (by norm_num), w1.2.2.2.1, w1.2.2.2.2.1,
    w1.2.2.2.2.2.1 1000⟩

/-- C10: for `readBit` and `readInt`, the caller's out-parameter is written
only on success: on every failure outcome its previous contents are
preserved. -/
theorem read_failure_leaves_out_param
    (regs : List RegisterDef) (st : ModbusState) (name : String)
    (wire : WireOp → Option Nat) (prevB : Bool) (prevI : Int) :
    (∀ e, (thermia_modbus_read_register_bit regs st name wire prevB).result =
        .error e →
      (thermia_modbus_read_register_bit regs st name wire prevB).value =
        prevB) ∧
    (∀ e, (thermia_modbus_read_register_int regs st name wire prevI).result =
        .error e →
      (thermia_modbus_read_register_int regs st name wire prevI).value =
        prevI) := by
  constructor
  · intro e he
    unfold thermia_modbus_read_register_bit at he ⊢
    cases hctx : st.g_ctx with
    | none => simp [hctx]
    | some hh =>
      simp only [hctx] at he ⊢
      cases hfind : find_register regs name
          (REG_COIL_STATUS ||| REG_INPUT_STATUS) with
      | none => simp [hfind]
      | some reg =>
        simp only [hfind] at he ⊢
        by_cases hsup : is_register_supported st.g_model reg
        · simp only [hsup, if_true] at he ⊢
          cases hw : wire (read_bit_wire_op reg) with
          | none => simp [hw]
          | some raw => simp [hw] at he
        · simp [hsup]
  · intro e he
    unfold thermia_modbus_read_register_int at he ⊢
    cases hctx : st.g_ctx with
    | none => simp [hctx]
    | some hh =>
      simp only [hctx] at he ⊢
      cases hfind : find_register regs name (REG_INPUT ||| REG_HOLDING) with
      | none => simp [hfind]
      | some reg =>
        simp only [hfind] at he ⊢
        by_cases hsup : is_register_supported st.g_model reg
        · simp only [hsup, if_true] at he ⊢
          cases hw : wire (read_int_wire_op reg) with
          | none => simp [hw]
          | some raw => simp [hw] at he
        · simp [hsup]

/-- Witness for C10: a `NotInitialised` failure and a wire-failure both
leave concrete previous out-parameter contents (`true`, `-77`) in place. -/
theorem read_failure_leaves_out_param_witness :
    (thermia_modbus_read_register_bit sampleRegs stClosed
      "enableHeatpumpResetAllAlarms" wireFail true).value = true ∧
    (thermia_modbus_read_register_int sampleRegs stMega
      "valueHeatpumpBrineInTemperature" wireFail (-77)).value = -77 :=
  ⟨(read_failure_leaves_out_param sampleRegs stClosed
      "enableHeatpumpResetAllAlarms" wireFail true (-77)).1
      .NotInitialised (by decide),
    (read_failure_leaves_out_param sampleRegs stMega
      "valueHeatpumpBrineInTemperature" wireFail true (-77)).2
      .ReadFailure (by decide)⟩
